import Mathlib

/-!
Verification of the GP training core of `sse_gnn/gp/gp_trainer.py`.

The numeric code is shallowly embedded: pure numpy formulas become Lean
functions over `ℚ` (or `ℝ` where the source takes square roots), TensorFlow
tensors become a shape/data record, and the external TensorFlow-Probability
numeric kernels (the Adam gradient step on the GP negative log marginal
likelihood, the regression-model mean/stddev, the standard-normal quantile)
are abstract parameters bundled in a `GPDynamics` record.  The `train_model`
loop, checkpointing and metric plumbing are translated statement by statement.
-/

/-- A TensorFlow tensor: a shape together with the flat (row-major) data.
`tf.constant(array, shape=shape)` keeps the flat data and installs the new
shape whenever the element counts agree. -/
structure Tensor where
  shape : List ℕ
  data : List ℚ
  deriving Repr, DecidableEq

/-- `convert_index_points` (gp_trainer.py lines 20-35):
`shape = array.shape; shape += (1,) * (shape[1] - 1);
 return tf.constant(array, dtype=tf.float64, shape=shape)`. -/
def convert_index_points (array : Tensor) : Tensor :=
  let shape := array.shape ++ List.replicate (array.shape.getD 1 0 - 1) 1
  { shape := shape, data := array.data }

/-- `np.linspace a b num` (with endpoint): sample `i` is `a + (b - a) * i / (num - 1)`. -/
def linspace (a b : ℚ) (num : ℕ) : List ℚ :=
  (List.range num).map (fun i : ℕ => a + (b - a) * (i : ℚ) / ((num : ℚ) - 1))

/-- `GPMetrics.pis` (gp_trainer.py lines 449-485).  The standard-normal
quantile function `tfd.Normal(0, 1).quantile` is an external transcendental
collaborator, taken as the parameter `quantile`:
`norm_resids = residuals / stddevs;
 predicted_pi = np.linspace(0, 1, 100);
 bounds = norm.quantile(predicted_pi);
 observed_pi = [np.count_nonzero(norm_resids <= bound) for bound in bounds] / norm_resids.size`. -/
def pis (quantile : ℚ → ℚ) (residuals stddevs : List ℚ) : List ℚ × List ℚ :=
  let norm_resids := List.zipWith (fun r s => r / s) residuals stddevs
  let predicted_pi := linspace 0 1 100
  let bounds := predicted_pi.map quantile
  let observed_pi :=
    bounds.map (fun bound => ((norm_resids.countP (fun r => decide (r ≤ bound))) : ℚ))
  (predicted_pi, observed_pi.map (fun c => c / (norm_resids.length : ℚ)))

/-- `np.mean` of a vector. -/
noncomputable def npMean (xs : List ℝ) : ℝ := xs.sum / (xs.length : ℝ)

/-- `GPMetrics.sharpness` (gp_trainer.py lines 379-387):
`np.sqrt(np.mean(np.square(self.stddevs)))`. -/
noncomputable def sharpness (stddevs : List ℝ) : ℝ :=
  Real.sqrt (npMean (stddevs.map (fun x => x ^ 2)))

/-- `GPMetrics.variation` (gp_trainer.py lines 389-402):
`stdev_mean = self.stddevs.mean();
 coeff_var = np.sqrt(np.sum(np.square(self.stddevs - stdev_mean)));
 coeff_var /= stdev_mean * (len(self.stddevs) - 1)`.
This version uses the field's totalized division (a zero denominator yields
the junk value 0); `variationNp` below makes the float non-finite path of a
zero denominator explicit, and the two agree wherever the denominator is
nonzero. -/
noncomputable def variation (stddevs : List ℝ) : ℝ :=
  let stdev_mean := npMean stddevs
  Real.sqrt ((stddevs.map (fun x => (x - stdev_mean) ^ 2)).sum) /
    (stdev_mean * ((stddevs.length : ℝ) - 1))

/-- `GPMetrics.variation` (gp_trainer.py lines 389-402) under numpy/IEEE-754
float semantics: the division's denominator `stdev_mean * (len(stddevs) - 1)`
can be zero, in which case numpy does not raise but produces a non-finite
float, modelled as `none`.  On the program's actual inputs — predicted
standard deviations, which are nonnegative — a zero denominator forces a
zero numerator too (a nonnegative vector with zero mean is all-zero, and at
`len = 1` the single deviation from the mean is zero), so the non-finite
value is specifically `0.0 / 0.0 = NaN`.  Where the denominator is nonzero
the finite value coincides with `variation`. -/
noncomputable def variationNp (stddevs : List ℝ) : Option ℝ :=
  let stdev_mean := npMean stddevs
  if stdev_mean * ((stddevs.length : ℝ) - 1) = 0 then none
  else some (Real.sqrt ((stddevs.map (fun x => (x - stdev_mean) ^ 2)).sum) /
    (stdev_mean * ((stddevs.length : ℝ) - 1)))

/-- Spec-side definition, for comparison with the code: the root-mean-square
of a vector ("root-mean-square of predicted standard deviations"). -/
noncomputable def rmsSpec (xs : List ℝ) : ℝ :=
  Real.sqrt ((xs.map (fun x => x ^ 2)).sum / (xs.length : ℝ))

/-- Spec-side definition, for comparison with the code: the population
standard deviation of a vector (root of the mean squared deviation). -/
noncomputable def popStdSpec (xs : List ℝ) : ℝ :=
  Real.sqrt (((xs.map (fun x => (x - npMean xs) ^ 2)).sum) / (xs.length : ℝ))

/-! ## GPTrainer state -/

/-- The Matérn-1/2 kernel built in `GPTrainer.__init__`:
`tfk.MaternOneHalf(amplitude=self.amplitude, length_scale=self.length_scale,
 feature_ndims=self.observation_index_points.shape[1])`.
It references the trainable hyperparameter variables. -/
structure MaternKernel where
  amplitude : ℚ
  length_scale : ℚ
  feature_ndims : ℕ
  deriving Repr, DecidableEq

/-- `tfd.GaussianProcessRegressionModel(kernel=..., index_points=...,
 observation_index_points=..., observations=...)` as built by `get_model`. -/
structure GaussianProcessRegressionModel where
  kernel : MaternKernel
  index_points : Tensor
  observation_index_points : Tensor
  observations : List ℚ
  deriving Repr, DecidableEq

/-- The five `tf.Variable`s of the `self.metrics` dict; `none` models the
initial `np.nan`. -/
structure MetricsVars where
  nll : Option ℚ
  mae : Option ℚ
  sharpness : Option ℚ
  variation : Option ℚ
  calibration_err : Option ℚ
  deriving Repr, DecidableEq

/-- One checkpoint, as tracked by the `tf.train.Checkpoint` in `__init__`
(step, amp, ls, loss and the five validation metrics); the
`CheckpointManager` keeps at most one of these (`max_to_keep=1`). -/
structure Snapshot where
  step : ℕ
  amp : ℚ
  ls : ℚ
  loss : Option ℚ
  val_nll : Option ℚ
  val_mae : Option ℚ
  val_sharpness : Option ℚ
  val_coeff_var : Option ℚ
  val_cal_err : Option ℚ
  deriving Repr, DecidableEq

/-- The mutable state of a `GPTrainer` object. `σ` is the (abstract) slot
state of the Adam optimizer; `ckptStore` models the contents of the
checkpoint directory (at most one checkpoint is retained). -/
structure GPTrainerState (σ : Type) where
  observation_index_points : Tensor
  observations : List ℚ
  amplitude : ℚ
  length_scale : ℚ
  feature_ndims : ℕ
  optState : σ
  trainingSteps : ℕ
  loss : Option ℚ
  metrics : MetricsVars
  hasCkptManager : Bool
  ckptStore : Option Snapshot

/-- The state built by `GPTrainer.__init__` (gp_trainer.py lines 72-162):
defaults `amplitude=1.0`, `length_scale=1.0`, step `0`, loss `NaN`, all
metrics `NaN`; when a checkpoint directory is given, the latest checkpoint
(if any) is restored into every tracked variable. -/
def initState {σ : Type} (observation_index_points : Tensor) (observations : List ℚ)
    (checkpointDir : Bool) (latestCheckpoint : Option Snapshot) (optState0 : σ) :
    GPTrainerState σ :=
  let base : GPTrainerState σ :=
    { observation_index_points := observation_index_points
      observations := observations
      amplitude := 1
      length_scale := 1
      feature_ndims := observation_index_points.shape.getD 1 0
      optState := optState0
      trainingSteps := 0
      loss := none
      metrics := { nll := none, mae := none, sharpness := none,
                   variation := none, calibration_err := none }
      hasCkptManager := checkpointDir
      ckptStore := if checkpointDir then latestCheckpoint else none }
  match checkpointDir, latestCheckpoint with
  | true, some snap =>
    { base with
      amplitude := snap.amp
      length_scale := snap.ls
      trainingSteps := snap.step
      loss := snap.loss
      metrics := { nll := snap.val_nll, mae := snap.val_mae,
                   sharpness := snap.val_sharpness, variation := snap.val_coeff_var,
                   calibration_err := snap.val_cal_err } }
  | _, _ => base

/-- `GPTrainer.__init__` as a fallible constructor.  The `Except` layer
records that a Python constructor may raise; the body of `__init__` contains
no validation at all (in particular no comparison of the index-point count
against the observation count), so every input constructs successfully. -/
def gpTrainerInit {σ : Type} (observation_index_points : Tensor) (observations : List ℚ)
    (checkpointDir : Bool) (latestCheckpoint : Option Snapshot) (optState0 : σ) :
    Except String (GPTrainerState σ) :=
  Except.ok (initState observation_index_points observations checkpointDir
    latestCheckpoint optState0)

/-- The kernel the trainer's distributions see: it references the current
values of the `amplitude` and `length_scale` variables. -/
def GPTrainerState.kernelOf {σ : Type} (t : GPTrainerState σ) : MaternKernel :=
  { amplitude := t.amplitude, length_scale := t.length_scale,
    feature_ndims := t.feature_ndims }

/-- `GPTrainer.get_model` (gp_trainer.py lines 177-195): builds a regression
model from the kernel, the query points and the training data. -/
def get_model {σ : Type} (t : GPTrainerState σ) (index_points : Tensor) :
    GaussianProcessRegressionModel :=
  { kernel := t.kernelOf
    index_points := index_points
    observation_index_points := t.observation_index_points
    observations := t.observations }

/-! ## Abstract numeric collaborators -/

/-- The TensorFlow/TFP numeric kernels, abstracted.  All are pure functions
of the current hyperparameters (the validation data of a `train_model` call
is fixed and folded in):
* `optimizeCycle a l o`: one `optimize_cycle` — an Adam step on the negative
  log marginal likelihood; returns the updated `(amplitude, length_scale,
  optimizer slots)` and the loss value.
* `meanOf a l` / `stddevOf a l`: `gprm.mean()` / `gprm.stddev()` on the
  validation points (`GPMetrics.update_mean` / `update_stddevs`).
* `metricVal m a l cachedMean cachedStddev`: the value of the `GPMetrics`
  attribute `m`, which may read the live kernel (e.g. `nll`) or the cached
  mean/stddev arrays (e.g. `mae`, `sharpness`).
* `gprmMean` / `gprmStddev`: mean and stddev of an arbitrary regression
  model (used by `predict`). -/
structure GPDynamics (σ : Type) where
  optimizeCycle : ℚ → ℚ → σ → (ℚ × ℚ × σ) × ℚ
  meanOf : ℚ → ℚ → List ℚ
  stddevOf : ℚ → ℚ → List ℚ
  metricVal : String → ℚ → ℚ → List ℚ → List ℚ → ℚ
  gprmMean : GaussianProcessRegressionModel → List ℚ
  gprmStddev : GaussianProcessRegressionModel → List ℚ

/-- `GPTrainer.predict` (gp_trainer.py lines 197-211), as a state
transformer: its body only builds `get_model(points)` and returns
`(gprm.mean(), gprm.stddev())`; it contains no assignment, so the state
component of the result is the input state. -/
def predict {σ : Type} (D : GPDynamics σ) (t : GPTrainerState σ) (points : Tensor) :
    (List ℚ × List ℚ) × GPTrainerState σ :=
  ((D.gprmMean (get_model t points), D.gprmStddev (get_model t points)), t)

/-- The trainer state after a sequence of `predict` calls. -/
def predictIter {σ : Type} (D : GPDynamics σ) (t : GPTrainerState σ) :
    List Tensor → GPTrainerState σ
  | [] => t
  | p :: ps => predictIter D (predict D t p).2 ps

/-! ## train_model (gp_trainer.py lines 213-291) -/

/-- `GPMetrics.REQUIRES_MEAN` (gp_trainer.py line 337). -/
def REQUIRES_MEAN : List String := ["mae", "calibration_err", "residuals", "pis"]

/-- `GPMetrics.REQUIRES_STDDEV` (gp_trainer.py line 338). -/
def REQUIRES_STDDEV : List String := ["sharpness", "variation"]

/-- The attribute names a `GPMetrics` instance exposes; `getattr` succeeds
exactly on these, and raises `AttributeError` otherwise. -/
def gpMetricsAttrs : List String :=
  ["val_points", "val_obs", "gp_trainer", "gprm", "mean", "stddevs",
   "update_mean", "update_stddevs", "nll", "mae", "sharpness", "variation",
   "calibration_err", "residuals", "sharpness_plot", "calibration_plot",
   "pis", "REQUIRES_MEAN", "REQUIRES_STDDEV"]

/-- The message of the `ValueError` raised at gp_trainer.py line 267,
`raise ValueError(f"Invalid metric: {e}")`, where the wrapped
`AttributeError` text names the missing attribute (quoting elided). -/
def invalidMetricMsg (m : String) : String :=
  "Invalid metric: GPMetrics object has no attribute " ++ m

/-- The comparison `self.metrics["nll"] < best_val_nll` (line 276): `none`
on the left models a NaN variable (every comparison false); `none` on the
right models `best_val_nll = np.inf`. -/
def nllImproved : Option ℚ → Option ℚ → Bool
  | some c, some b => decide (c < b)
  | some _, none => true
  | none, _ => false

/-- Python truthiness of the optional `patience` argument: `None` and `0`
are both falsy. -/
def patienceTruthy : Option ℕ → Bool
  | none => false
  | some p => p != 0

/-- `if patience and steps_since_improvement >= patience` (line 283). -/
def patienceReached (patience : Option ℕ) (ssi : ℕ) : Bool :=
  patienceTruthy patience && decide (ssi ≥ (patience.getD 0))

/-- `self.metrics[metric].assign(value)` for a single metric name: only the
five dict keys exist; any other name is a `KeyError`. -/
def assignMetricVar (mv : MetricsVars) (m : String) (v : ℚ) : Option MetricsVars :=
  if m = "nll" then some { mv with nll := some v }
  else if m = "mae" then some { mv with mae := some v }
  else if m = "sharpness" then some { mv with sharpness := some v }
  else if m = "variation" then some { mv with variation := some v }
  else if m = "calibration_err" then some { mv with calibration_err := some v }
  else none

/-- The assignment loop at gp_trainer.py lines 269-270; on a `KeyError` the
earlier assignments stay in effect and the error message names the key. -/
def assignMetricVars (mv : MetricsVars) : List (String × ℚ) → MetricsVars × Option String
  | [] => (mv, none)
  | (m, v) :: rest =>
    match assignMetricVar mv m v with
    | some mv2 => assignMetricVars mv2 rest
    | none => (mv, some ("KeyError: " ++ m))

/-- `self.ckpt_manager.save(self.training_steps)` (line 280): snapshot the
current values of every tracked variable, keyed by the step counter. -/
def snapshotOf {σ : Type} (t : GPTrainerState σ) : Snapshot :=
  { step := t.trainingSteps
    amp := t.amplitude
    ls := t.length_scale
    loss := t.loss
    val_nll := t.metrics.nll
    val_mae := t.metrics.mae
    val_sharpness := t.metrics.sharpness
    val_coeff_var := t.metrics.variation
    val_cal_err := t.metrics.calibration_err }

/-- The local state of one `train_model` invocation: the trainer, the
`GPMetrics` cached mean/stddev arrays, `best_val_nll` (`none` = `np.inf`)
and `steps_since_improvement`. -/
structure LoopState (σ : Type) where
  trainer : GPTrainerState σ
  cachedMean : List ℚ
  cachedStddev : List ℚ
  best : Option ℚ
  ssi : ℕ

/-- Outcome of one iteration of the `for i in range(epochs)` body. -/
inductive EpochStep (σ : Type) where
  | errored (msg : String) (ls : LoopState σ)
  | continued (ls : LoopState σ)
  | broke (ls : LoopState σ)

/-- One iteration of the `train_model` loop body (gp_trainer.py lines
252-288), in source order: `optimize_cycle` and loss assignment; step
counter increment; lazy `update_mean`/`update_stddevs`; the `metric_dict`
comprehension (first unknown attribute raises the `ValueError`); metric
variable assignment; then the patience / checkpoint block. -/
def trainEpoch {σ : Type} (D : GPDynamics σ) (ms : List String) (patience : Option ℕ)
    (ls : LoopState σ) : EpochStep σ :=
  let t0 := ls.trainer
  let s := D.optimizeCycle t0.amplitude t0.length_scale t0.optState
  let t1 : GPTrainerState σ :=
    { t0 with
      amplitude := s.1.1
      length_scale := s.1.2.1
      optState := s.1.2.2
      loss := some s.2
      trainingSteps := t0.trainingSteps + 1 }
  let cm := if ms.any (fun m => REQUIRES_MEAN.contains m)
    then D.meanOf t1.amplitude t1.length_scale else ls.cachedMean
  let cs := if ms.any (fun m => REQUIRES_STDDEV.contains m)
    then D.stddevOf t1.amplitude t1.length_scale else ls.cachedStddev
  match ms.find? (fun m => !(gpMetricsAttrs.contains m)) with
  | some bad =>
    EpochStep.errored (invalidMetricMsg bad)
      { ls with trainer := t1, cachedMean := cm, cachedStddev := cs }
  | none =>
    let dict := ms.map (fun m => (m, D.metricVal m t1.amplitude t1.length_scale cm cs))
    match assignMetricVars t1.metrics dict with
    | (mv, some msg) =>
      EpochStep.errored msg
        { ls with trainer := { t1 with metrics := mv }, cachedMean := cm, cachedStddev := cs }
    | (mv, none) =>
      let t2 : GPTrainerState σ := { t1 with metrics := mv }
      if patienceTruthy patience || t2.hasCkptManager then
        if nllImproved t2.metrics.nll ls.best then
          let t3 := if t2.hasCkptManager
            then { t2 with ckptStore := some (snapshotOf t2) } else t2
          EpochStep.continued
            { trainer := t3, cachedMean := cm, cachedStddev := cs,
              best := t2.metrics.nll, ssi := 1 }
        else
          let ssi2 := ls.ssi + 1
          if patienceReached patience ssi2 then
            EpochStep.broke
              { trainer := t2, cachedMean := cm, cachedStddev := cs,
                best := ls.best, ssi := ssi2 }
          else
            EpochStep.continued
              { trainer := t2, cachedMean := cm, cachedStddev := cs,
                best := ls.best, ssi := ssi2 }
      else
        EpochStep.continued
          { trainer := t2, cachedMean := cm, cachedStddev := cs,
            best := ls.best, ssi := ls.ssi }

/-- How a `train_model` run ended: the epoch range was exhausted, patience
broke out early, or an exception escaped. -/
inductive TrainResult (σ : Type) where
  | completed (ls : LoopState σ)
  | stoppedEarly (ls : LoopState σ)
  | failed (msg : String) (ls : LoopState σ)

/-- The `for i in range(epochs)` loop. -/
def trainLoop {σ : Type} (D : GPDynamics σ) (ms : List String) (patience : Option ℕ) :
    ℕ → LoopState σ → TrainResult σ
  | 0, ls => TrainResult.completed ls
  | n + 1, ls =>
    match trainEpoch D ms patience ls with
    | EpochStep.errored msg ls2 => TrainResult.failed msg ls2
    | EpochStep.broke ls2 => TrainResult.stoppedEarly ls2
    | EpochStep.continued ls2 => trainLoop D ms patience n ls2

/-- `GPTrainer.train_model` (gp_trainer.py lines 213-291), modelled as the
generator body running to its end: initialise `best_val_nll` from the
current `metrics["nll"]` (NaN becomes `np.inf`); append `"nll"` to the
caller's `metrics` list in place when a checkpoint manager or truthy
`patience` needs it; build the `GPMetrics` handler (which eagerly computes
mean and stddev); then iterate.  Returns the (possibly mutated) metrics
list object together with the loop outcome. -/
def trainModel {σ : Type} (D : GPDynamics σ) (t : GPTrainerState σ) (epochs : ℕ)
    (patience : Option ℕ) (metrics : List String) :
    List String × TrainResult σ :=
  let best := t.metrics.nll
  let ms := if (t.hasCkptManager || patienceTruthy patience) && !(metrics.contains "nll")
    then metrics ++ ["nll"] else metrics
  let ls0 : LoopState σ :=
    { trainer := t
      cachedMean := D.meanOf t.amplitude t.length_scale
      cachedStddev := D.stddevOf t.amplitude t.length_scale
      best := best
      ssi := 1 }
  (ms, trainLoop D ms patience epochs ls0)

/-- Two consecutive `train_model` calls that both use the default `metrics`
argument.  CPython evaluates the default `[]` once, at function definition
time; both calls receive the same list object, so the first call's in-place
`append` is visible to the second.  The function returns the default list
object's contents after the two calls. -/
def defaultMetricsAfterTwoCalls {σ : Type} (D : GPDynamics σ)
    (t1 t2 : GPTrainerState σ) (e1 e2 : ℕ) (p1 p2 : Option ℕ) : List String :=
  let sharedDefault : List String := []
  let afterFirst := (trainModel D t1 e1 p1 sharedDefault).1
  (trainModel D t2 e2 p2 afterFirst).1

/-! ## Trajectories and result projections -/

/-- The hyperparameter/optimizer trajectory of repeated `optimize_cycle`
calls from `(a, l, o)`: component one is the state after `i` cycles,
component two the loss returned by cycle `i` (`none` when `i = 0`). -/
def optIter {σ : Type} (D : GPDynamics σ) (a l : ℚ) (o : σ) : ℕ → (ℚ × ℚ × σ) × Option ℚ
  | 0 => ((a, l, o), none)
  | i + 1 =>
    let prev := (optIter D a l o i).1
    let s := D.optimizeCycle prev.1 prev.2.1 prev.2.2
    (s.1, some s.2)

/-- The validation NLL the metrics handler reports after `i` optimize
cycles, with cached mean/stddev arrays `cm`/`cs`. -/
def nllAt {σ : Type} (D : GPDynamics σ) (a l : ℚ) (o : σ) (cm cs : List ℚ) (i : ℕ) : ℚ :=
  D.metricVal "nll" ((optIter D a l o i).1).1 ((optIter D a l o i).1).2.1 cm cs

/-- The error message of a failed run, if any. -/
def TrainResult.errorMsg {σ : Type} : TrainResult σ → Option String
  | TrainResult.failed msg _ => some msg
  | _ => none

/-- The loop state in which a run ended. -/
def TrainResult.finalState {σ : Type} : TrainResult σ → LoopState σ
  | TrainResult.completed ls => ls
  | TrainResult.stoppedEarly ls => ls
  | TrainResult.failed _ ls => ls

/-- Whether the run was cut short by the patience rule. -/
def TrainResult.isStoppedEarly {σ : Type} : TrainResult σ → Bool
  | TrainResult.stoppedEarly _ => true
  | _ => false

/-- Whether the run raised. -/
def TrainResult.isFailed {σ : Type} : TrainResult σ → Bool
  | TrainResult.failed _ _ => true
  | _ => false

/-! ## Concrete instances used to exercise the model -/

/-- Concrete numeric dynamics for concrete runs: each optimize cycle moves
the amplitude to `3` and reports loss `7`; every metric evaluates to `5`
(so the validation NLL improves at step 1 — from `np.inf` — and never
strictly improves afterwards). -/
def demoDyn : GPDynamics Unit :=
  { optimizeCycle := fun _ l _ => ((3, l, ()), 7)
    meanOf := fun _ _ => [0]
    stddevOf := fun _ _ => [1]
    metricVal := fun _ _ _ _ _ => 5
    gprmMean := fun _ => [0]
    gprmStddev := fun _ => [1] }

/-- A 2×1 index-point tensor. -/
def demoTensor : Tensor := { shape := [2, 1], data := [0, 1] }

/-! ## Claims -/

/-- C6: for every 2-D numeric array of shape (N, D) with D ≥ 1,
`convert_index_points` returns a tensor of shape (N, D) followed by exactly
(D − 1) trailing singleton dimensions, with the element values unchanged
(the element count is preserved, so the reshape is value-preserving), and —
being a pure function in this embedding — has no side effects. -/
theorem convert_index_points_appends_singletons (a : Tensor) (n d : ℕ)
    (hshape : a.shape = [n, d]) (_hd : 1 ≤ d) :
    (convert_index_points a).shape = [n, d] ++ List.replicate (d - 1) 1 ∧
    (convert_index_points a).data = a.data ∧
    (convert_index_points a).shape.prod = a.shape.prod := by
  refine ⟨?_, rfl, ?_⟩
  · simp [convert_index_points, hshape]
  · simp [convert_index_points, hshape, List.prod_replicate]

/-- Witness for C6 at the concrete 2×3 tensor `[[1,2,3],[4,5,6]]`. -/
theorem convert_index_points_appends_singletons_witness :
    (⟨[2, 3], [1, 2, 3, 4, 5, 6]⟩ : Tensor).shape = [2, 3] ∧ 1 ≤ 3 ∧
    ((convert_index_points ⟨[2, 3], [1, 2, 3, 4, 5, 6]⟩).shape =
        [2, 3] ++ List.replicate (3 - 1) 1 ∧
      (convert_index_points ⟨[2, 3], [1, 2, 3, 4, 5, 6]⟩).data =
        (⟨[2, 3], [1, 2, 3, 4, 5, 6]⟩ : Tensor).data ∧
      (convert_index_points ⟨[2, 3], [1, 2, 3, 4, 5, 6]⟩).shape.prod =
        (⟨[2, 3], [1, 2, 3, 4, 5, 6]⟩ : Tensor).shape.prod) :=
  ⟨rfl, by norm_num,
    convert_index_points_appends_singletons ⟨[2, 3], [1, 2, 3, 4, 5, 6]⟩ 2 3 rfl (by norm_num)⟩

/-- C3 counterexample: constructing a `GPTrainer` with 2 observation index
points but 3 observations does not fail — `__init__` performs no count
validation; the mismatched inputs are stored unchanged and all state takes
its defaults. -/
theorem gpTrainerInit_mismatch_succeeds :
    (⟨[2, 1], [5, 7]⟩ : Tensor).shape.getD 0 0 = 2 ∧
    ([1, 2, 3] : List ℚ).length = 3 ∧
    gpTrainerInit (σ := Unit) ⟨[2, 1], [5, 7]⟩ [1, 2, 3] false none () =
      Except.ok (initState ⟨[2, 1], [5, 7]⟩ [1, 2, 3] false none ()) ∧
    (initState (σ := Unit) ⟨[2, 1], [5, 7]⟩ [1, 2, 3] false none
        ()).observation_index_points.shape.getD 0 0 = 2 ∧
    (initState (σ := Unit) ⟨[2, 1], [5, 7]⟩ [1, 2, 3] false none ()).observations.length = 3 ∧
    (initState (σ := Unit) ⟨[2, 1], [5, 7]⟩ [1, 2, 3] false none ()).amplitude = 1 :=
  ⟨rfl, rfl, rfl, rfl, rfl, rfl⟩

/-- C3 amended: `GPTrainer.__init__` performs no validation of the
observation count against the index-point count; construction succeeds for
every pair of inputs, mismatched counts included, storing both unchanged
(the mismatch can only surface later, when the observations are used
against the prior, e.g. in `optimize_cycle`'s `log_prob`). -/
theorem gpTrainerInit_no_count_validation {σ : Type} (pts : Tensor) (obs : List ℚ)
    (checkpointDir : Bool) (latest : Option Snapshot) (o0 : σ)
    (_hmismatch : pts.shape.getD 0 0 ≠ obs.length) :
    ∃ t : GPTrainerState σ,
      gpTrainerInit pts obs checkpointDir latest o0 = Except.ok t ∧
      t.observation_index_points = pts ∧ t.observations = obs := by
  refine ⟨initState pts obs checkpointDir latest o0, rfl, ?_, ?_⟩ <;>
    cases checkpointDir <;> cases latest <;> rfl

/-- Witness for the amended C3 at a concrete mismatched input. -/
theorem gpTrainerInit_no_count_validation_witness :
    (⟨[2, 1], [5, 7]⟩ : Tensor).shape.getD 0 0 ≠ ([1, 2, 3] : List ℚ).length ∧
    ∃ t : GPTrainerState Unit,
      gpTrainerInit ⟨[2, 1], [5, 7]⟩ [1, 2, 3] false none () = Except.ok t ∧
      t.observation_index_points = ⟨[2, 1], [5, 7]⟩ ∧ t.observations = [1, 2, 3] :=
  ⟨by norm_num,
    gpTrainerInit_no_count_validation ⟨[2, 1], [5, 7]⟩ [1, 2, 3] false none () (by norm_num)⟩

/-- C9: `predict` returns exactly the (mean, stddev) pair of the regression
model built by `get_model(points)`, and mutates nothing: the state is
returned unchanged, and after any number of `predict` calls the amplitude,
length-scale, step counter, loss and metrics mapping are all identical. -/
theorem predict_pure {σ : Type} (D : GPDynamics σ) (t : GPTrainerState σ) (points : Tensor) :
    (predict D t points).1 =
      (D.gprmMean (get_model t points), D.gprmStddev (get_model t points)) ∧
    (predict D t points).2 = t ∧
    ∀ ps : List Tensor,
      (predictIter D t ps).amplitude = t.amplitude ∧
      (predictIter D t ps).length_scale = t.length_scale ∧
      (predictIter D t ps).trainingSteps = t.trainingSteps ∧
      (predictIter D t ps).loss = t.loss ∧
      (predictIter D t ps).metrics = t.metrics := by
  refine ⟨rfl, rfl, ?_⟩
  intro ps
  have h : predictIter D t ps = t := by
    induction ps with
    | nil => rfl
    | cons p ps ih => simpa [predictIter, predict] using ih
  rw [h]
  exact ⟨rfl, rfl, rfl, rfl, rfl⟩

/-- C10: `train_model` appends `"nll"` in place to the caller-supplied
metrics list whenever a checkpoint manager exists or `patience` is truthy
and `"nll"` is not yet present; since CPython evaluates the default
`metrics=[]` once and shares the list object across calls, the mutation
persists, so the default list still contains `"nll"` on a subsequent call
(which therefore appends nothing further). -/
theorem trainModel_mutates_default_metrics {σ : Type} (D : GPDynamics σ)
    (t1 t2 : GPTrainerState σ) (e1 e2 : ℕ) (p1 p2 : Option ℕ)
    (h : t1.hasCkptManager = true ∨ patienceTruthy p1 = true) :
    (trainModel D t1 e1 p1 []).1 = ["nll"] ∧
    defaultMetricsAfterTwoCalls D t1 t2 e1 e2 p1 p2 = ["nll"] := by
  have hcond : (t1.hasCkptManager || patienceTruthy p1) = true := by
    rcases h with h | h <;> simp [h]
  have hfirst : (trainModel D t1 e1 p1 []).1 = ["nll"] := by
    simp [trainModel, hcond]
  refine ⟨hfirst, ?_⟩
  show (trainModel D t2 e2 p2 (trainModel D t1 e1 p1 []).1).1 = ["nll"]
  rw [hfirst]
  have hin : (["nll"] : List String).contains "nll" = true := rfl
  simp [trainModel, hin]

/-- Witness for C10: a trainer with a checkpoint manager and `patience=2`. -/
theorem trainModel_mutates_default_metrics_witness :
    ((initState (σ := Unit) demoTensor [0, 1] true none ()).hasCkptManager = true ∨
      patienceTruthy (some 2) = true) ∧
    ((trainModel demoDyn (initState demoTensor [0, 1] true none ()) 3 (some 2) []).1 = ["nll"] ∧
      defaultMetricsAfterTwoCalls demoDyn (initState demoTensor [0, 1] true none ())
        (initState demoTensor [0, 1] true none ()) 3 3 (some 2) (some 2) = ["nll"]) :=
  ⟨Or.inl rfl,
    trainModel_mutates_default_metrics demoDyn _ _ 3 3 (some 2) (some 2) (Or.inl rfl)⟩

/-- C4 counterexample: at the two predicted stddevs `[1, 3]` the `variation`
the code computes is `√2 / 2`, not the claimed population standard deviation
over (mean × (N−1)), which is `1 / 2` — the code takes the root of the *sum*
of squared deviations, not of their mean. -/
theorem variation_counterexample :
    variation [1, 3] ≠
      popStdSpec [1, 3] / (npMean [1, 3] * ((([1, 3] : List ℝ).length : ℝ) - 1)) := by
  have hm : npMean [1, 3] = 2 := by norm_num [npMean]
  have hL : variation [1, 3] = Real.sqrt 2 / 2 := by
    simp only [variation, hm]
    norm_num
  have hR : popStdSpec [1, 3] = 1 := by
    simp only [popStdSpec, hm]
    norm_num
  rw [hL, hR, hm]
  have h2 : (1 : ℝ) < Real.sqrt 2 := by
    have h := Real.sqrt_lt_sqrt (by norm_num : (0 : ℝ) ≤ 1) (by norm_num : (1 : ℝ) < 2)
    simpa [Real.sqrt_one] using h
  intro h
  norm_num at h
  nlinarith

/-- C4 amended: for every vector of N ≥ 2 predicted standard deviations,
`variation` equals the square root of the *sum* of squared deviations from
the mean, divided by (mean stddev × (N−1)) — equivalently, √N times the
population standard deviation divided by (mean stddev × (N−1)). -/
theorem variation_eq_sqrt_len_mul_popstd (s : List ℝ) (h2 : 2 ≤ s.length) :
    variation s =
      Real.sqrt (s.length) * popStdSpec s / (npMean s * ((s.length : ℝ) - 1)) := by
  have hn : (0 : ℝ) < (s.length : ℝ) := by
    have h0 : 0 < s.length := lt_of_lt_of_le (by norm_num) h2
    exact_mod_cast h0
  simp only [variation, popStdSpec]
  rw [← Real.sqrt_mul hn.le]
  congr 2
  field_simp

/-- Witness for the amended C4 at the stddev vector `[1, 3]`. -/
theorem variation_eq_sqrt_len_mul_popstd_witness :
    2 ≤ ([1, 3] : List ℝ).length ∧
    variation [1, 3] =
      Real.sqrt (([1, 3] : List ℝ).length) * popStdSpec [1, 3] /
        (npMean [1, 3] * ((([1, 3] : List ℝ).length : ℝ) - 1)) :=
  ⟨by norm_num, variation_eq_sqrt_len_mul_popstd [1, 3] (by norm_num)⟩

/-- Squares are nonnegative, elementwise over a mapped list. -/
lemma map_sq_nonneg (s : List ℝ) : ∀ y ∈ s.map (fun x => x ^ 2), 0 ≤ y := by
  intro y hy
  simp only [List.mem_map] at hy
  obtain ⟨x, _, rfl⟩ := hy
  exact sq_nonneg x

/-- A sum of squares vanishes exactly when every entry vanishes. -/
lemma sum_sq_eq_zero_iff (s : List ℝ) :
    (s.map (fun x => x ^ 2)).sum = 0 ↔ ∀ x ∈ s, x = 0 := by
  induction s with
  | nil => simp
  | cons a t ih =>
    have ha : (0 : ℝ) ≤ a ^ 2 := sq_nonneg a
    have ht : (0 : ℝ) ≤ (t.map (fun x => x ^ 2)).sum := List.sum_nonneg (map_sq_nonneg t)
    simp only [List.map_cons, List.sum_cons, List.mem_cons]
    rw [add_eq_zero_iff_of_nonneg ha ht]
    constructor
    · rintro ⟨h1, h2⟩
      intro x hx
      rcases hx with rfl | hx
      · exact pow_eq_zero_iff (by norm_num) |>.mp h1
      · exact ih.mp h2 x hx
    · intro h
      refine ⟨?_, ih.mpr fun x hx => h x (Or.inr hx)⟩
      have := h a (Or.inl rfl)
      simp [this]

/-- A sum of nonnegative entries vanishes exactly when every entry does. -/
lemma sum_eq_zero_iff_of_nonneg (s : List ℝ) :
    (∀ x ∈ s, 0 ≤ x) → (s.sum = 0 ↔ ∀ x ∈ s, x = 0) := by
  induction s with
  | nil =>
    intro _
    simp
  | cons a t ih =>
    intro h
    have ha : (0 : ℝ) ≤ a := h a (List.mem_cons_self a t)
    have ht : ∀ x ∈ t, (0 : ℝ) ≤ x := fun x hx => h x (List.mem_cons_of_mem a hx)
    have hts : (0 : ℝ) ≤ t.sum := List.sum_nonneg ht
    simp only [List.sum_cons, List.mem_cons]
    rw [add_eq_zero_iff_of_nonneg ha hts, ih ht]
    constructor
    · rintro ⟨h1, h2⟩ x (rfl | hx)
      · exact h1
      · exact h2 x hx
    · intro hall
      exact ⟨hall a (Or.inl rfl), fun x hx => hall x (Or.inr hx)⟩

/-- C5 counterexample: at the single predicted stddev `[2]` (N = 1) and at
the all-zero stddev vector `[0, 0]` — inputs inside the claim's scope, the
second being the very case its "sharpness = 0 iff all stddevs are 0" part
highlights — the denominator `stdev_mean * (N − 1)` of gp_trainer.py line
401 is zero, so the program's `variation` is the float `0.0 / 0.0 = NaN`,
not a nonnegative number. -/
theorem variation_nan_counterexample :
    ([0, 0] : List ℝ) ≠ [] ∧ (∀ x ∈ ([0, 0] : List ℝ), 0 ≤ x) ∧
    variationNp [0, 0] = none ∧ variationNp [2] = none ∧
    ¬ ∃ v : ℝ, variationNp [0, 0] = some v ∧ 0 ≤ v := by
  have h00 : variationNp [0, 0] = none := by
    have hm : npMean [0, 0] = 0 := by norm_num [npMean]
    simp [variationNp, hm]
  have h2 : variationNp [2] = none := by
    have hm : npMean [2] = 2 := by norm_num [npMean]
    simp [variationNp, hm]
  refine ⟨by simp, by norm_num [List.forall_mem_cons], h00, h2, ?_⟩
  rintro ⟨v, hv, _⟩
  rw [h00] at hv
  exact Option.noConfusion hv

/-- C5 amended: for every non-empty vector of (nonnegative) predicted
standard deviations, `sharpness` equals the root-mean-square of the stddevs,
`sharpness` is ≥ 0, and `sharpness = 0` iff all predicted stddevs are 0;
`variation` is ≥ 0 whenever it is a number at all — that is, whenever its
denominator `mean stddev × (N − 1)` is nonzero, where it agrees with the
totalized formula — and it is NaN (`0.0 / 0.0`) exactly when N = 1 or all
predicted stddevs are 0. -/
theorem sharpness_rms_variation_props (s : List ℝ) (hne : s ≠ []) (hnn : ∀ x ∈ s, 0 ≤ x) :
    sharpness s = rmsSpec s ∧ 0 ≤ sharpness s ∧
    (sharpness s = 0 ↔ ∀ x ∈ s, x = 0) ∧
    (∀ v : ℝ, variationNp s = some v → v = variation s ∧ 0 ≤ v) ∧
    (variationNp s = none ↔ s.length = 1 ∨ ∀ x ∈ s, x = 0) := by
  have hlen : 0 < s.length := List.length_pos.mpr hne
  have hlenR : (0 : ℝ) < (s.length : ℝ) := by exact_mod_cast hlen
  have hsum : (0 : ℝ) ≤ (s.map (fun x => x ^ 2)).sum := List.sum_nonneg (map_sq_nonneg s)
  have hmean : 0 ≤ npMean s := div_nonneg (List.sum_nonneg hnn) (Nat.cast_nonneg _)
  have hone : (1 : ℝ) ≤ (s.length : ℝ) := by exact_mod_cast hlen
  refine ⟨?_, Real.sqrt_nonneg _, ?_, ?_, ?_⟩
  · simp [sharpness, rmsSpec, npMean]
  · constructor
    · intro h
      have h0 : npMean (s.map (fun x => x ^ 2)) ≤ 0 := (Real.sqrt_eq_zero').mp h
      have hle : (s.map (fun x => x ^ 2)).sum ≤ 0 := by
        simp only [npMean, List.length_map] at h0
        rcases div_nonpos_iff.mp h0 with ⟨_, hbad⟩ | ⟨h1, _⟩
        · exact absurd hbad (not_le.mpr hlenR)
        · exact h1
      exact (sum_sq_eq_zero_iff s).mp (le_antisymm hle hsum)
    · intro h
      have hz : (s.map (fun x => x ^ 2)).sum = 0 := (sum_sq_eq_zero_iff s).mpr h
      simp [sharpness, npMean, hz]
  · intro v hv
    by_cases hden : npMean s * ((s.length : ℝ) - 1) = 0
    · simp only [variationNp, if_pos hden] at hv
      exact Option.noConfusion hv
    · simp only [variationNp, if_neg hden] at hv
      obtain rfl := (Option.some.injEq _ _).mp hv
      constructor
      · simp only [variation]
      · exact div_nonneg (Real.sqrt_nonneg _) (mul_nonneg hmean (by linarith))
  · constructor
    · intro h
      have hden : npMean s * ((s.length : ℝ) - 1) = 0 := by
        by_contra hd
        simp only [variationNp, if_neg hd] at h
        exact Option.noConfusion h
      rcases mul_eq_zero.mp hden with hm | hl
      · right
        have hs0 : s.sum = 0 := by
          rw [npMean, div_eq_zero_iff] at hm
          rcases hm with h0 | h0
          · exact h0
          · exact absurd h0 (ne_of_gt hlenR)
        exact (sum_eq_zero_iff_of_nonneg s hnn).mp hs0
      · left
        have hcast : (s.length : ℝ) = 1 := by linarith
        exact_mod_cast hcast
    · intro h
      have hden : npMean s * ((s.length : ℝ) - 1) = 0 := by
        rcases h with h1 | hz
        · have hcast : (s.length : ℝ) = 1 := by exact_mod_cast h1
          rw [hcast]
          ring
        · have hs0 : s.sum = 0 := (sum_eq_zero_iff_of_nonneg s hnn).mpr hz
          simp [npMean, hs0]
      simp only [variationNp, if_pos hden]

/-- Witness for the amended C5 at the stddev vector `[1, 2]`. -/
theorem sharpness_rms_variation_props_witness :
    ([1, 2] : List ℝ) ≠ [] ∧ (∀ x ∈ ([1, 2] : List ℝ), 0 ≤ x) ∧
    (sharpness [1, 2] = rmsSpec [1, 2] ∧ 0 ≤ sharpness [1, 2] ∧
      (sharpness [1, 2] = 0 ↔ ∀ x ∈ ([1, 2] : List ℝ), x = 0) ∧
      (∀ v : ℝ, variationNp [1, 2] = some v → v = variation [1, 2] ∧ 0 ≤ v) ∧
      (variationNp [1, 2] = none ↔
        ([1, 2] : List ℝ).length = 1 ∨ ∀ x ∈ ([1, 2] : List ℝ), x = 0)) :=
  ⟨by simp, by norm_num [List.forall_mem_cons],
    sharpness_rms_variation_props [1, 2] (by simp) (by norm_num [List.forall_mem_cons])⟩

/-- Evaluate `getD` through a `List.map` at an in-range index. -/
lemma getD_map_of_lt {α β : Type} (f : α → β) (l : List α) (i : ℕ) (d : β) (d2 : α)
    (h : i < l.length) :
    (l.map f).getD i d = f (l.getD i d2) := by
  rw [List.getD_eq_getElem?_getD, List.getD_eq_getElem?_getD, List.getElem?_map,
    List.getElem?_eq_getElem h]
  simp

/-- Evaluate `getD` through a map over `List.range`. -/
lemma getD_range_map {α : Type} (f : ℕ → α) (n i : ℕ) (d : α) (h : i < n) :
    ((List.range n).map f).getD i d = f i := by
  rw [List.getD_eq_getElem?_getD]
  simp [List.getElem?_map, List.getElem?_range, h]

/-- Sample `i` of `np.linspace(0, 1, 100)` is `i / 99`. -/
lemma linspace01_getD (i : ℕ) (h : i < 100) :
    (linspace 0 1 100).getD i 0 = (i : ℚ) / 99 := by
  rw [linspace, getD_range_map _ _ _ _ h]
  norm_num

/-- C7: for every non-empty residual and stddev vector (of equal length),
`pis` returns two length-100 sequences; the first holds the 100 evenly
spaced nominal quantile levels `i/99` spanning [0, 1] (consecutive gaps all
`1/99`), and entry `i` of the second is the fraction of normalized
residuals (residual divided by predicted stddev) that are ≤ the
standard-normal quantile bound of level `i`. -/
theorem pis_levels_and_fractions (q : ℚ → ℚ) (residuals stddevs : List ℚ)
    (_hne : residuals ≠ []) (hlen : residuals.length = stddevs.length) :
    (pis q residuals stddevs).1.length = 100 ∧
    (pis q residuals stddevs).2.length = 100 ∧
    (∀ i, i < 100 → (pis q residuals stddevs).1.getD i 0 = (i : ℚ) / 99) ∧
    (pis q residuals stddevs).1.getD 0 0 = 0 ∧
    (pis q residuals stddevs).1.getD 99 0 = 1 ∧
    (∀ i, i + 1 < 100 →
      (pis q residuals stddevs).1.getD (i + 1) 0 - (pis q residuals stddevs).1.getD i 0
        = 1 / 99) ∧
    (∀ i, i < 100 →
      (pis q residuals stddevs).2.getD i 0 =
        ((List.zipWith (fun r s => r / s) residuals stddevs).countP
            (fun r => decide (r ≤ q ((pis q residuals stddevs).1.getD i 0))) : ℚ) /
          (residuals.length : ℚ)) := by
  have hz : (List.zipWith (fun r s => r / s) residuals stddevs).length = residuals.length := by
    rw [List.length_zipWith, hlen, min_self]
  have hfst : (pis q residuals stddevs).1 = linspace 0 1 100 := rfl
  have hlen1 : (linspace 0 1 100).length = 100 := by simp [linspace]
  refine ⟨?_, ?_, ?_, ?_, ?_, ?_, ?_⟩
  · simp [pis, linspace]
  · simp [pis, linspace]
  · intro i h
    rw [hfst, linspace01_getD i h]
  · rw [hfst, linspace01_getD 0 (by norm_num)]; norm_num
  · rw [hfst, linspace01_getD 99 (by norm_num)]; norm_num
  · intro i h
    rw [hfst, linspace01_getD (i + 1) h, linspace01_getD i (by omega)]
    push_cast
    ring
  · intro i h
    have hsnd : (pis q residuals stddevs).2 =
        (((linspace 0 1 100).map q).map
          (fun bound => (((List.zipWith (fun r s => r / s) residuals stddevs).countP
              (fun r => decide (r ≤ bound))) : ℚ))).map
          (fun c => c / ((List.zipWith (fun r s => r / s) residuals stddevs).length : ℚ)) := rfl
    rw [hsnd]
    rw [getD_map_of_lt _ _ i 0 0 (by simp [hlen1, h])]
    rw [getD_map_of_lt _ _ i 0 0 (by simp [hlen1, h])]
    rw [getD_map_of_lt _ _ i 0 0 (by simp [hlen1, h])]
    rw [hfst, hz]

/-- Witness for C7 with the identity in place of the quantile function and
the one-element residual/stddev vectors `[1]`. -/
theorem pis_levels_and_fractions_witness :
    ([1] : List ℚ) ≠ [] ∧ ([1] : List ℚ).length = ([1] : List ℚ).length ∧
    (pis id [1] [1]).1.length = 100 :=
  ⟨by simp, rfl, (pis_levels_and_fractions id [1] [1] (by simp) rfl).1⟩

/-- Requesting only the unknown metric `"bogus"` makes the loop body run one
full optimize cycle (hyperparameters, optimizer state, loss and step counter
all updated) and then raise at the `metric_dict` comprehension. -/
lemma trainEpoch_bogus {σ : Type} (D : GPDynamics σ) (p : Option ℕ) (ls : LoopState σ) :
    trainEpoch D ["bogus"] p ls =
      EpochStep.errored (invalidMetricMsg "bogus")
        { ls with trainer :=
          { ls.trainer with
            amplitude :=
              (D.optimizeCycle ls.trainer.amplitude ls.trainer.length_scale
                ls.trainer.optState).1.1
            length_scale :=
              (D.optimizeCycle ls.trainer.amplitude ls.trainer.length_scale
                ls.trainer.optState).1.2.1
            optState :=
              (D.optimizeCycle ls.trainer.amplitude ls.trainer.length_scale
                ls.trainer.optState).1.2.2
            loss :=
              some (D.optimizeCycle ls.trainer.amplitude ls.trainer.length_scale
                ls.trainer.optState).2
            trainingSteps := ls.trainer.trainingSteps + 1 } } := by
  have h1 : (["bogus"].any (fun m => REQUIRES_MEAN.contains m)) = false := rfl
  have h2 : (["bogus"].any (fun m => REQUIRES_STDDEV.contains m)) = false := rfl
  have h3 : (["bogus"].find? (fun m => !(gpMetricsAttrs.contains m))) = some "bogus" := rfl
  simp only [trainEpoch, h1, h2, h3, Bool.false_eq_true, if_false]

/-- C1 amended: calling `train_model` (for at least one epoch, on a trainer
without a checkpoint manager) with the metrics list `["bogus"]` fails with a
`ValueError` identifying `"bogus"` — but only after exactly one optimizer
step has been performed: the step counter has been incremented once and
amplitude, length-scale, optimizer state and loss have taken the values of
one `optimize_cycle`, because the metric names are only validated inside
the loop body, after the gradient step. -/
theorem trainModel_bogus_fails_after_one_step {σ : Type} (D : GPDynamics σ)
    (t : GPTrainerState σ) (e : ℕ) (he : 1 ≤ e) (hck : t.hasCkptManager = false) :
    ∃ fin : LoopState σ,
      trainModel D t e none ["bogus"] =
        (["bogus"], TrainResult.failed (invalidMetricMsg "bogus") fin) ∧
      fin.trainer.trainingSteps = t.trainingSteps + 1 ∧
      fin.trainer.amplitude = (D.optimizeCycle t.amplitude t.length_scale t.optState).1.1 ∧
      fin.trainer.length_scale =
        (D.optimizeCycle t.amplitude t.length_scale t.optState).1.2.1 ∧
      fin.trainer.optState = (D.optimizeCycle t.amplitude t.length_scale t.optState).1.2.2 ∧
      fin.trainer.loss = some (D.optimizeCycle t.amplitude t.length_scale t.optState).2 := by
  obtain ⟨e1, rfl⟩ : ∃ e1, e = e1 + 1 := ⟨e - 1, by omega⟩
  refine
    ⟨{ trainer :=
        { t with
          amplitude := (D.optimizeCycle t.amplitude t.length_scale t.optState).1.1
          length_scale := (D.optimizeCycle t.amplitude t.length_scale t.optState).1.2.1
          optState := (D.optimizeCycle t.amplitude t.length_scale t.optState).1.2.2
          loss := some (D.optimizeCycle t.amplitude t.length_scale t.optState).2
          trainingSteps := t.trainingSteps + 1 }
       cachedMean := D.meanOf t.amplitude t.length_scale
       cachedStddev := D.stddevOf t.amplitude t.length_scale
       best := t.metrics.nll
       ssi := 1 }, ?_, rfl, rfl, rfl, rfl, rfl⟩
  simp only [trainModel, hck, patienceTruthy, Bool.false_or, Bool.false_and,
    Bool.false_eq_true, if_false, trainLoop, trainEpoch_bogus]

/-- C1 counterexample: with concrete dynamics, requesting metric `"bogus"`
raises the identifying error, yet the trainer is *not* unchanged: the step
counter is 1 (not 0) and the amplitude moved from its initial 1 to the value
of one optimizer step. -/
theorem trainModel_bogus_performs_a_step :
    ((trainModel demoDyn (initState demoTensor [0, 1] false none ()) 5 none
        ["bogus"]).2).errorMsg = some (invalidMetricMsg "bogus") ∧
    ((trainModel demoDyn (initState demoTensor [0, 1] false none ()) 5 none
        ["bogus"]).2).finalState.trainer.trainingSteps = 1 ∧
    (initState (σ := Unit) demoTensor [0, 1] false none ()).amplitude = 1 ∧
    ((trainModel demoDyn (initState demoTensor [0, 1] false none ()) 5 none
        ["bogus"]).2).finalState.trainer.amplitude = 3 ∧
    (1 : ℕ) ≠ 0 ∧ (3 : ℚ) ≠ 1 := by
  refine ⟨by decide, by decide, by decide, by decide, by decide, by decide⟩

/-- Witness for the amended C1 with the concrete demo dynamics. -/
theorem trainModel_bogus_fails_after_one_step_witness :
    1 ≤ 5 ∧ (initState (σ := Unit) demoTensor [0, 1] false none ()).hasCkptManager = false ∧
    ∃ fin : LoopState Unit,
      trainModel demoDyn (initState demoTensor [0, 1] false none ()) 5 none ["bogus"] =
        (["bogus"], TrainResult.failed (invalidMetricMsg "bogus") fin) ∧
      fin.trainer.trainingSteps =
        (initState (σ := Unit) demoTensor [0, 1] false none ()).trainingSteps + 1 ∧
      fin.trainer.amplitude =
        (demoDyn.optimizeCycle (initState (σ := Unit) demoTensor [0, 1] false none
          ()).amplitude (initState (σ := Unit) demoTensor [0, 1] false none ()).length_scale
          (initState (σ := Unit) demoTensor [0, 1] false none ()).optState).1.1 ∧
      fin.trainer.length_scale =
        (demoDyn.optimizeCycle (initState (σ := Unit) demoTensor [0, 1] false none
          ()).amplitude (initState (σ := Unit) demoTensor [0, 1] false none ()).length_scale
          (initState (σ := Unit) demoTensor [0, 1] false none ()).optState).1.2.1 ∧
      fin.trainer.optState =
        (demoDyn.optimizeCycle (initState (σ := Unit) demoTensor [0, 1] false none
          ()).amplitude (initState (σ := Unit) demoTensor [0, 1] false none ()).length_scale
          (initState (σ := Unit) demoTensor [0, 1] false none ()).optState).1.2.2 ∧
      fin.trainer.loss =
        some (demoDyn.optimizeCycle (initState (σ := Unit) demoTensor [0, 1] false none
          ()).amplitude (initState (σ := Unit) demoTensor [0, 1] false none ()).length_scale
          (initState (σ := Unit) demoTensor [0, 1] false none ()).optState).2 :=
  ⟨by norm_num, rfl,
    trainModel_bogus_fails_after_one_step demoDyn
      (initState demoTensor [0, 1] false none ()) 5 (by norm_num) rfl⟩

/-- One loop iteration in the configuration `train_model` sets up when
`patience` is a nonzero number, no checkpoint manager exists and the
requested metrics are exactly `["nll"]`: run one optimize cycle, record the
validation NLL, then either reset the since-improvement counter to 1 (strict
improvement) or increment it and stop once it reaches `patience`. -/
lemma trainEpoch_nll_noCkpt {σ : Type} (D : GPDynamics σ) (p : ℕ) (ls : LoopState σ)
    (hp : p ≠ 0) (hck : ls.trainer.hasCkptManager = false) :
    trainEpoch D ["nll"] (some p) ls =
      (let s := D.optimizeCycle ls.trainer.amplitude ls.trainer.length_scale
        ls.trainer.optState
       let v := D.metricVal "nll" s.1.1 s.1.2.1 ls.cachedMean ls.cachedStddev
       let t2 : GPTrainerState σ :=
         { ls.trainer with
           amplitude := s.1.1
           length_scale := s.1.2.1
           optState := s.1.2.2
           loss := some s.2
           trainingSteps := ls.trainer.trainingSteps + 1
           metrics := { ls.trainer.metrics with nll := some v } }
       if nllImproved (some v) ls.best then
         EpochStep.continued
           { trainer := t2
             cachedMean := ls.cachedMean
             cachedStddev := ls.cachedStddev
             best := some v
             ssi := 1 }
       else if patienceReached (some p) (ls.ssi + 1) then
         EpochStep.broke
           { trainer := t2
             cachedMean := ls.cachedMean
             cachedStddev := ls.cachedStddev
             best := ls.best
             ssi := ls.ssi + 1 }
       else
         EpochStep.continued
           { trainer := t2
             cachedMean := ls.cachedMean
             cachedStddev := ls.cachedStddev
             best := ls.best
             ssi := ls.ssi + 1 }) := by
  have h1 : (["nll"].any (fun m => REQUIRES_MEAN.contains m)) = false := rfl
  have h2 : (["nll"].any (fun m => REQUIRES_STDDEV.contains m)) = false := rfl
  have h3 : (["nll"].find? (fun m => !(gpMetricsAttrs.contains m))) = none := rfl
  have hpt : patienceTruthy (some p) = true := by
    simp [patienceTruthy, hp]
  simp only [trainEpoch, h1, h2, h3, Bool.false_eq_true, if_false, List.map_cons,
    List.map_nil, assignMetricVars, assignMetricVar, if_pos rfl, hck, hpt, Bool.or_false,
    if_true]

/-- Peel one iteration off the training loop. -/
lemma trainLoop_succ {σ : Type} (D : GPDynamics σ) (ms : List String) (p : Option ℕ)
    (n : ℕ) (ls : LoopState σ) :
    trainLoop D ms p (n + 1) ls =
      match trainEpoch D ms p ls with
      | EpochStep.errored msg ls2 => TrainResult.failed msg ls2
      | EpochStep.broke ls2 => TrainResult.stoppedEarly ls2
      | EpochStep.continued ls2 => trainLoop D ms p n ls2 := rfl

/-- The trainer state one `["nll"]`-epoch produces: one optimize cycle
applied to the hyperparameters, optimizer state and loss, the step counter
incremented, and the validation-NLL variable assigned. -/
def epochTrainer {σ : Type} (D : GPDynamics σ) (t : GPTrainerState σ) (cm cs : List ℚ) :
    GPTrainerState σ :=
  { t with
    amplitude := (D.optimizeCycle t.amplitude t.length_scale t.optState).1.1
    length_scale := (D.optimizeCycle t.amplitude t.length_scale t.optState).1.2.1
    optState := (D.optimizeCycle t.amplitude t.length_scale t.optState).1.2.2
    loss := some (D.optimizeCycle t.amplitude t.length_scale t.optState).2
    trainingSteps := t.trainingSteps + 1
    metrics := { t.metrics with
      nll := some (D.metricVal "nll"
        (D.optimizeCycle t.amplitude t.length_scale t.optState).1.1
        (D.optimizeCycle t.amplitude t.length_scale t.optState).1.2.1 cm cs) } }

/-- The validation NLL one `["nll"]`-epoch records. -/
def epochNll {σ : Type} (D : GPDynamics σ) (t : GPTrainerState σ) (cm cs : List ℚ) : ℚ :=
  D.metricVal "nll" (D.optimizeCycle t.amplitude t.length_scale t.optState).1.1
    (D.optimizeCycle t.amplitude t.length_scale t.optState).1.2.1 cm cs

/-- The `["nll"]`-epoch with nonzero patience, no checkpoint manager and a
strict NLL improvement: the since-improvement counter resets to 1. -/
lemma trainEpoch_nll_noCkpt_improve {σ : Type} (D : GPDynamics σ) (p : ℕ)
    (ls : LoopState σ) (hp : p ≠ 0) (hck : ls.trainer.hasCkptManager = false)
    (himp : nllImproved (some (epochNll D ls.trainer ls.cachedMean ls.cachedStddev))
      ls.best = true) :
    trainEpoch D ["nll"] (some p) ls =
      EpochStep.continued
        { trainer := epochTrainer D ls.trainer ls.cachedMean ls.cachedStddev
          cachedMean := ls.cachedMean
          cachedStddev := ls.cachedStddev
          best := some (epochNll D ls.trainer ls.cachedMean ls.cachedStddev)
          ssi := 1 } := by
  rw [trainEpoch_nll_noCkpt D p ls hp hck]
  simp only [epochNll] at himp
  simp only [himp, if_true, epochTrainer, epochNll, hck, Bool.false_eq_true, if_false]

/-- The `["nll"]`-epoch with nonzero patience, no checkpoint manager, no NLL
improvement and patience not yet exhausted: the counter increments and the
loop continues. -/
lemma trainEpoch_nll_noCkpt_stay {σ : Type} (D : GPDynamics σ) (p : ℕ)
    (ls : LoopState σ) (hp : p ≠ 0) (hck : ls.trainer.hasCkptManager = false)
    (himp : nllImproved (some (epochNll D ls.trainer ls.cachedMean ls.cachedStddev))
      ls.best = false)
    (hpr : patienceReached (some p) (ls.ssi + 1) = false) :
    trainEpoch D ["nll"] (some p) ls =
      EpochStep.continued
        { trainer := epochTrainer D ls.trainer ls.cachedMean ls.cachedStddev
          cachedMean := ls.cachedMean
          cachedStddev := ls.cachedStddev
          best := ls.best
          ssi := ls.ssi + 1 } := by
  rw [trainEpoch_nll_noCkpt D p ls hp hck]
  simp only [epochNll] at himp
  simp only [himp, hpr, if_true, epochTrainer, epochNll, Bool.false_eq_true, if_false]

/-- The `["nll"]`-epoch with nonzero patience, no checkpoint manager, no NLL
improvement and the counter reaching patience: the loop breaks. -/
lemma trainEpoch_nll_noCkpt_break {σ : Type} (D : GPDynamics σ) (p : ℕ)
    (ls : LoopState σ) (hp : p ≠ 0) (hck : ls.trainer.hasCkptManager = false)
    (himp : nllImproved (some (epochNll D ls.trainer ls.cachedMean ls.cachedStddev))
      ls.best = false)
    (hpr : patienceReached (some p) (ls.ssi + 1) = true) :
    trainEpoch D ["nll"] (some p) ls =
      EpochStep.broke
        { trainer := epochTrainer D ls.trainer ls.cachedMean ls.cachedStddev
          cachedMean := ls.cachedMean
          cachedStddev := ls.cachedStddev
          best := ls.best
          ssi := ls.ssi + 1 } := by
  rw [trainEpoch_nll_noCkpt D p ls hp hck]
  simp only [epochNll] at himp
  simp only [himp, hpr, if_true, epochTrainer, epochNll, Bool.false_eq_true, if_false]

/-- Shifting the optimize-cycle trajectory by one step. -/
lemma optIter_fst_shift {σ : Type} (D : GPDynamics σ) (a l : ℚ) (o : σ) (j : ℕ) :
    (optIter D a l o (j + 1)).1 =
      (optIter D (D.optimizeCycle a l o).1.1 (D.optimizeCycle a l o).1.2.1
        (D.optimizeCycle a l o).1.2.2 j).1 := by
  induction j with
  | zero => rfl
  | succ j ih =>
    show (let prev := (optIter D a l o (j + 1)).1
          let s := D.optimizeCycle prev.1 prev.2.1 prev.2.2
          ((s.1, some s.2) : (ℚ × ℚ × σ) × Option ℚ)).1 = _
    rw [ih]
    rfl

/-- The NLL trajectory seen from the post-epoch trainer is the original
trajectory shifted by one step. -/
lemma nllAt_epochTrainer {σ : Type} (D : GPDynamics σ) (t : GPTrainerState σ)
    (cm cs : List ℚ) (j : ℕ) :
    nllAt D (epochTrainer D t cm cs).amplitude (epochTrainer D t cm cs).length_scale
        (epochTrainer D t cm cs).optState cm cs j =
      nllAt D t.amplitude t.length_scale t.optState cm cs (j + 1) := by
  unfold nllAt
  simp only [epochTrainer]
  rw [optIter_fst_shift]

/-- The recorded NLL of one epoch is point 1 of the NLL trajectory. -/
lemma epochNll_eq_nllAt_one {σ : Type} (D : GPDynamics σ) (t : GPTrainerState σ)
    (cm cs : List ℚ) :
    epochNll D t cm cs = nllAt D t.amplitude t.length_scale t.optState cm cs 1 := rfl

/-- Once the loop state holds a best NLL that no later step strictly beats,
the since-improvement counter climbs to `patience` and the loop stops
exactly when it reaches it: `k` further epochs run, where
`ssi + k = patience`. -/
lemma trainLoop_patience_break {σ : Type} (D : GPDynamics σ) (p : ℕ) (hp : p ≠ 0) :
    ∀ (k n : ℕ) (ls : LoopState σ) (b : ℚ),
      ls.trainer.hasCkptManager = false →
      ls.best = some b →
      ls.ssi + k = p →
      1 ≤ k → k ≤ n →
      (∀ j, j < k →
        ¬ (nllAt D ls.trainer.amplitude ls.trainer.length_scale ls.trainer.optState
            ls.cachedMean ls.cachedStddev (j + 1) < b)) →
      ∃ fin, trainLoop D ["nll"] (some p) n ls = TrainResult.stoppedEarly fin ∧
        fin.trainer.trainingSteps = ls.trainer.trainingSteps + k ∧ fin.ssi = p := by
  intro k
  induction k with
  | zero =>
    intro n ls b _ _ _ h1 _ _
    omega
  | succ k ih =>
    intro n ls b hck hbest hsum _h1 hn hfut
    obtain ⟨n1, rfl⟩ : ∃ n1, n = n1 + 1 := ⟨n - 1, by omega⟩
    have himp : nllImproved (some (epochNll D ls.trainer ls.cachedMean ls.cachedStddev))
        ls.best = false := by
      rw [hbest, epochNll_eq_nllAt_one]
      simp only [nllImproved]
      exact decide_eq_false (hfut 0 (by omega))
    by_cases hk : k = 0
    · subst hk
      have hpr : patienceReached (some p) (ls.ssi + 1) = true := by
        simp only [patienceReached, patienceTruthy, Option.getD_some]
        have hge : ls.ssi + 1 ≥ p := by omega
        simp [hp, hge]
      refine
        ⟨{ trainer := epochTrainer D ls.trainer ls.cachedMean ls.cachedStddev
           cachedMean := ls.cachedMean
           cachedStddev := ls.cachedStddev
           best := ls.best
           ssi := ls.ssi + 1 }, ?_, ?_, ?_⟩
      · rw [trainLoop_succ, trainEpoch_nll_noCkpt_break D p ls hp hck himp hpr]
      · simp [epochTrainer]
      · show ls.ssi + 1 = p
        omega
    · have hpr : patienceReached (some p) (ls.ssi + 1) = false := by
        simp only [patienceReached, patienceTruthy, Option.getD_some]
        have hlt : ¬ (ls.ssi + 1 ≥ p) := by omega
        simp [hp, hlt]
      have hstep := trainEpoch_nll_noCkpt_stay D p ls hp hck himp hpr
      obtain ⟨fin, hrun, hsteps, hssi⟩ :=
        ih n1
          { trainer := epochTrainer D ls.trainer ls.cachedMean ls.cachedStddev
            cachedMean := ls.cachedMean
            cachedStddev := ls.cachedStddev
            best := ls.best
            ssi := ls.ssi + 1 }
          b (by simp [epochTrainer, hck]) hbest (by simp; omega) (by omega) (by omega)
          (by
            intro j hj
            simp only
            rw [nllAt_epochTrainer]
            exact hfut (j + 1) (by omega))
      refine ⟨fin, ?_, ?_, hssi⟩
      · rw [trainLoop_succ, hstep]
        exact hrun
      · rw [hsteps]
        simp [epochTrainer]
        omega

/-- C2 amended: for every run of `train_model` with `patience=3` from a
fresh-state trainer (no checkpoint manager, NLL metric still NaN, step
counter 0) whose validation NLL — strictly improving at step 1, from the
initial `np.inf` — never strictly improves at steps 2 and 3, training stops
exactly **2** steps after the last improvement, i.e. after step 3 (not after
step 4 and not at `epochs`): the since-improvement counter resets to **1**
on strict improvement, increments otherwise, and training stops when the
counter reaches `patience`. -/
theorem trainModel_patience3_stops_after_step3 {σ : Type} (D : GPDynamics σ)
    (t : GPTrainerState σ) (e : ℕ) (he : 3 ≤ e)
    (hck : t.hasCkptManager = false) (hnll : t.metrics.nll = none)
    (hsteps : t.trainingSteps = 0)
    (h2 : ¬ nllAt D t.amplitude t.length_scale t.optState
        (D.meanOf t.amplitude t.length_scale) (D.stddevOf t.amplitude t.length_scale) 2 <
      nllAt D t.amplitude t.length_scale t.optState
        (D.meanOf t.amplitude t.length_scale) (D.stddevOf t.amplitude t.length_scale) 1)
    (h3 : ¬ nllAt D t.amplitude t.length_scale t.optState
        (D.meanOf t.amplitude t.length_scale) (D.stddevOf t.amplitude t.length_scale) 3 <
      nllAt D t.amplitude t.length_scale t.optState
        (D.meanOf t.amplitude t.length_scale) (D.stddevOf t.amplitude t.length_scale) 1) :
    ∃ fin : LoopState σ,
      trainModel D t e (some 3) [] = (["nll"], TrainResult.stoppedEarly fin) ∧
      fin.trainer.trainingSteps = 3 ∧ fin.ssi = 3 := by
  obtain ⟨e1, rfl⟩ : ∃ e1, e = e1 + 1 := ⟨e - 1, by omega⟩
  have hcond : ((t.hasCkptManager || patienceTruthy (some 3)) &&
      !(List.contains [] "nll")) = true := by
    rw [hck]
    rfl
  have hms : trainModel D t (e1 + 1) (some 3) [] =
      (["nll"], trainLoop D ["nll"] (some 3) (e1 + 1)
        { trainer := t
          cachedMean := D.meanOf t.amplitude t.length_scale
          cachedStddev := D.stddevOf t.amplitude t.length_scale
          best := none
          ssi := 1 }) := by
    simp only [trainModel, hcond, if_true, hnll, List.nil_append]
  have himp : nllImproved
      (some (epochNll D t (D.meanOf t.amplitude t.length_scale)
        (D.stddevOf t.amplitude t.length_scale))) (none : Option ℚ) = true := rfl
  have hstep1 := trainEpoch_nll_noCkpt_improve D 3
    { trainer := t
      cachedMean := D.meanOf t.amplitude t.length_scale
      cachedStddev := D.stddevOf t.amplitude t.length_scale
      best := none
      ssi := 1 } (by norm_num) hck himp
  obtain ⟨fin, hrun, hfsteps, hssi⟩ :=
    trainLoop_patience_break D 3 (by norm_num) 2 e1
      { trainer := epochTrainer D t (D.meanOf t.amplitude t.length_scale)
          (D.stddevOf t.amplitude t.length_scale)
        cachedMean := D.meanOf t.amplitude t.length_scale
        cachedStddev := D.stddevOf t.amplitude t.length_scale
        best := some (epochNll D t (D.meanOf t.amplitude t.length_scale)
          (D.stddevOf t.amplitude t.length_scale))
        ssi := 1 }
      (epochNll D t (D.meanOf t.amplitude t.length_scale)
        (D.stddevOf t.amplitude t.length_scale))
      (by simp [epochTrainer, hck]) rfl (by norm_num) (by norm_num) (by omega)
      (by
        intro j hj
        simp only
        rw [nllAt_epochTrainer, epochNll_eq_nllAt_one]
        match j, hj with
        | 0, _ => exact h2
        | 1, _ => exact h3)
  refine ⟨fin, ?_, ?_, hssi⟩
  · rw [hms, trainLoop_succ, hstep1]
    exact congrArg _ hrun
  · rw [hfsteps]
    simp [epochTrainer, hsteps]

/-- C2 counterexample: with concrete dynamics whose validation NLL improves
at step 1 (from `np.inf`) and never strictly improves again, `patience=3`
stops training after step 3 — 2 steps after the last improvement — not
after step 4 as claimed, and well before `epochs=10`. -/
theorem trainModel_patience3_counterexample :
    ((trainModel demoDyn (initState demoTensor [0, 1] false none ()) 10 (some 3)
        []).2).isStoppedEarly = true ∧
    ((trainModel demoDyn (initState demoTensor [0, 1] false none ()) 10 (some 3)
        []).2).finalState.trainer.trainingSteps = 3 ∧
    (3 : ℕ) ≠ 4 ∧ (3 : ℕ) ≠ 10 := by
  refine ⟨by decide, by decide, by decide, by decide⟩

/-- Witness for the amended C2 with the concrete demo dynamics. -/
theorem trainModel_patience3_stops_after_step3_witness :
    3 ≤ 10 ∧
    (initState (σ := Unit) demoTensor [0, 1] false none ()).hasCkptManager = false ∧
    (initState (σ := Unit) demoTensor [0, 1] false none ()).metrics.nll = none ∧
    (initState (σ := Unit) demoTensor [0, 1] false none ()).trainingSteps = 0 ∧
    ∃ fin : LoopState Unit,
      trainModel demoDyn (initState demoTensor [0, 1] false none ()) 10 (some 3) [] =
        (["nll"], TrainResult.stoppedEarly fin) ∧
      fin.trainer.trainingSteps = 3 ∧ fin.ssi = 3 :=
  ⟨by norm_num, rfl, rfl, rfl,
    trainModel_patience3_stops_after_step3 demoDyn
      (initState demoTensor [0, 1] false none ()) 10 (by norm_num) rfl rfl rfl
      (by decide) (by decide)⟩

/-! ## Checkpoint round-trip (C8) -/

/-- Amplitude after `i` optimize cycles. -/
def trajA {σ : Type} (D : GPDynamics σ) (a l : ℚ) (o : σ) (i : ℕ) : ℚ :=
  ((optIter D a l o i).1).1

/-- Length-scale after `i` optimize cycles. -/
def trajL {σ : Type} (D : GPDynamics σ) (a l : ℚ) (o : σ) (i : ℕ) : ℚ :=
  ((optIter D a l o i).1).2.1

/-- Optimizer state after `i` optimize cycles. -/
def trajO {σ : Type} (D : GPDynamics σ) (a l : ℚ) (o : σ) (i : ℕ) : σ :=
  ((optIter D a l o i).1).2.2

/-- Loss reported by optimize cycle `i` (`none` for `i = 0`). -/
def trajLoss {σ : Type} (D : GPDynamics σ) (a l : ℚ) (o : σ) (i : ℕ) : Option ℚ :=
  (optIter D a l o i).2

/-- The checkpoint a fresh-metrics run saves at step `j`: the trajectory
state at step `j`, keyed by `j`, with the never-assigned metric variables
still NaN. -/
def snapAt {σ : Type} (D : GPDynamics σ) (a l : ℚ) (o : σ) (cm cs : List ℚ) (j : ℕ) :
    Snapshot :=
  { step := j
    amp := trajA D a l o j
    ls := trajL D a l o j
    loss := trajLoss D a l o j
    val_nll := some (nllAt D a l o cm cs j)
    val_mae := none
    val_sharpness := none
    val_coeff_var := none
    val_cal_err := none }

/-- One loop iteration in the configuration `train_model` sets up when a
checkpoint manager exists, `patience` is `None` and the requested metrics
are exactly `["nll"]`: run one optimize cycle, record the validation NLL,
save a checkpoint exactly on strict improvement, and never break. -/
lemma trainEpoch_nll_ckpt {σ : Type} (D : GPDynamics σ) (ls : LoopState σ)
    (hck : ls.trainer.hasCkptManager = true) :
    trainEpoch D ["nll"] none ls =
      (let s := D.optimizeCycle ls.trainer.amplitude ls.trainer.length_scale
        ls.trainer.optState
       let v := D.metricVal "nll" s.1.1 s.1.2.1 ls.cachedMean ls.cachedStddev
       let t2 : GPTrainerState σ :=
         { ls.trainer with
           amplitude := s.1.1
           length_scale := s.1.2.1
           optState := s.1.2.2
           loss := some s.2
           trainingSteps := ls.trainer.trainingSteps + 1
           metrics := { ls.trainer.metrics with nll := some v } }
       if nllImproved (some v) ls.best then
         EpochStep.continued
           { trainer := { t2 with ckptStore := some (snapshotOf t2) }
             cachedMean := ls.cachedMean
             cachedStddev := ls.cachedStddev
             best := some v
             ssi := 1 }
       else
         EpochStep.continued
           { trainer := t2
             cachedMean := ls.cachedMean
             cachedStddev := ls.cachedStddev
             best := ls.best
             ssi := ls.ssi + 1 }) := by
  have h1 : (["nll"].any (fun m => REQUIRES_MEAN.contains m)) = false := rfl
  have h2 : (["nll"].any (fun m => REQUIRES_STDDEV.contains m)) = false := rfl
  have h3 : (["nll"].find? (fun m => !(gpMetricsAttrs.contains m))) = none := rfl
  simp only [trainEpoch, h1, h2, h3, Bool.false_eq_true, if_false, List.map_cons,
    List.map_nil, assignMetricVars, assignMetricVar, if_pos rfl, hck, patienceTruthy,
    Bool.false_or, if_true, patienceReached, Bool.false_and]

/-- The checkpointing `["nll"]`-epoch on a strict NLL improvement: the
counter resets to 1 and a snapshot of the post-step trainer is saved. -/
lemma trainEpoch_nll_ckpt_improve {σ : Type} (D : GPDynamics σ) (ls : LoopState σ)
    (hck : ls.trainer.hasCkptManager = true)
    (himp : nllImproved (some (epochNll D ls.trainer ls.cachedMean ls.cachedStddev))
      ls.best = true) :
    trainEpoch D ["nll"] none ls =
      EpochStep.continued
        { trainer :=
            { epochTrainer D ls.trainer ls.cachedMean ls.cachedStddev with
              ckptStore :=
                some (snapshotOf (epochTrainer D ls.trainer ls.cachedMean ls.cachedStddev)) }
          cachedMean := ls.cachedMean
          cachedStddev := ls.cachedStddev
          best := some (epochNll D ls.trainer ls.cachedMean ls.cachedStddev)
          ssi := 1 } := by
  rw [trainEpoch_nll_ckpt D ls hck]
  simp only [epochNll] at himp
  simp only [himp, if_true, epochTrainer, epochNll]

/-- The checkpointing `["nll"]`-epoch without improvement: the counter
increments, no snapshot is written, and the loop continues. -/
lemma trainEpoch_nll_ckpt_stay {σ : Type} (D : GPDynamics σ) (ls : LoopState σ)
    (hck : ls.trainer.hasCkptManager = true)
    (himp : nllImproved (some (epochNll D ls.trainer ls.cachedMean ls.cachedStddev))
      ls.best = false) :
    trainEpoch D ["nll"] none ls =
      EpochStep.continued
        { trainer := epochTrainer D ls.trainer ls.cachedMean ls.cachedStddev
          cachedMean := ls.cachedMean
          cachedStddev := ls.cachedStddev
          best := ls.best
          ssi := ls.ssi + 1 } := by
  rw [trainEpoch_nll_ckpt D ls hck]
  simp only [epochNll] at himp
  simp only [himp, Bool.false_eq_true, if_false, epochTrainer, epochNll]

/-- Loop invariant of a fresh checkpointing run: after `i` epochs the
trainer carries the step-`i` trajectory state, the retained checkpoint is a
faithful snapshot of the trajectory at some improving step `j ≤ i`, and
`best_val_nll` is the NLL recorded at step `j`. -/
structure C8Inv {σ : Type} (D : GPDynamics σ) (a l : ℚ) (o : σ) (cm cs : List ℚ)
    (i j : ℕ) (ls : LoopState σ) : Prop where
  amp : ls.trainer.amplitude = trajA D a l o i
  len : ls.trainer.length_scale = trajL D a l o i
  opt : ls.trainer.optState = trajO D a l o i
  steps : ls.trainer.trainingSteps = i
  loss : ls.trainer.loss = trajLoss D a l o i
  nll : ls.trainer.metrics.nll = some (nllAt D a l o cm cs i)
  mae : ls.trainer.metrics.mae = none
  sharp : ls.trainer.metrics.sharpness = none
  varia : ls.trainer.metrics.variation = none
  cal : ls.trainer.metrics.calibration_err = none
  hck : ls.trainer.hasCkptManager = true
  store : ls.trainer.ckptStore = some (snapAt D a l o cm cs j)
  hcm : ls.cachedMean = cm
  hcs : ls.cachedStddev = cs
  best : ls.best = some (nllAt D a l o cm cs j)
  j1 : 1 ≤ j
  ji : j ≤ i

/-- Unfolding the amplitude trajectory one step. -/
lemma trajA_succ {σ : Type} (D : GPDynamics σ) (a l : ℚ) (o : σ) (i : ℕ) :
    trajA D a l o (i + 1) =
      (D.optimizeCycle (trajA D a l o i) (trajL D a l o i) (trajO D a l o i)).1.1 := rfl

/-- Unfolding the length-scale trajectory one step. -/
lemma trajL_succ {σ : Type} (D : GPDynamics σ) (a l : ℚ) (o : σ) (i : ℕ) :
    trajL D a l o (i + 1) =
      (D.optimizeCycle (trajA D a l o i) (trajL D a l o i) (trajO D a l o i)).1.2.1 := rfl

/-- Unfolding the optimizer-state trajectory one step. -/
lemma trajO_succ {σ : Type} (D : GPDynamics σ) (a l : ℚ) (o : σ) (i : ℕ) :
    trajO D a l o (i + 1) =
      (D.optimizeCycle (trajA D a l o i) (trajL D a l o i) (trajO D a l o i)).1.2.2 := rfl

/-- Unfolding the loss trajectory one step. -/
lemma trajLoss_succ {σ : Type} (D : GPDynamics σ) (a l : ℚ) (o : σ) (i : ℕ) :
    trajLoss D a l o (i + 1) =
      some (D.optimizeCycle (trajA D a l o i) (trajL D a l o i) (trajO D a l o i)).2 := rfl

/-- Unfolding the NLL trajectory one step. -/
lemma nllAt_succ {σ : Type} (D : GPDynamics σ) (a l : ℚ) (o : σ) (cm cs : List ℚ) (i : ℕ) :
    nllAt D a l o cm cs (i + 1) =
      D.metricVal "nll"
        (D.optimizeCycle (trajA D a l o i) (trajL D a l o i) (trajO D a l o i)).1.1
        (D.optimizeCycle (trajA D a l o i) (trajL D a l o i) (trajO D a l o i)).1.2.1
        cm cs := rfl

/-- The invariant survives one checkpointing epoch: either the NLL improves
and the checkpoint moves to the new step, or nothing is saved and the old
checkpoint is retained. -/
lemma c8Inv_epoch {σ : Type} (D : GPDynamics σ) (a l : ℚ) (o : σ) (cm cs : List ℚ)
    (i j : ℕ) (ls : LoopState σ) (h : C8Inv D a l o cm cs i j ls) :
    ∃ ls' j', trainEpoch D ["nll"] none ls = EpochStep.continued ls' ∧
      C8Inv D a l o cm cs (i + 1) j' ls' := by
  have hv : epochNll D ls.trainer ls.cachedMean ls.cachedStddev =
      nllAt D a l o cm cs (i + 1) := by
    unfold epochNll
    rw [h.amp, h.len, h.opt, h.hcm, h.hcs, nllAt_succ]
  have hsnap : snapshotOf (epochTrainer D ls.trainer ls.cachedMean ls.cachedStddev) =
      snapAt D a l o cm cs (i + 1) := by
    unfold snapshotOf epochTrainer snapAt
    simp only
    rw [h.steps, h.amp, h.len, h.opt, h.hcm, h.hcs, h.mae, h.sharp, h.varia, h.cal,
      trajA_succ, trajL_succ, trajLoss_succ, nllAt_succ]
  cases hb : nllImproved (some (epochNll D ls.trainer ls.cachedMean ls.cachedStddev))
      ls.best with
  | true =>
    refine ⟨_, i + 1, trainEpoch_nll_ckpt_improve D ls h.hck hb, ?_⟩
    refine ⟨?_, ?_, ?_, ?_, ?_, ?_, ?_, ?_, ?_, ?_, ?_, ?_, h.hcm, h.hcs, ?_,
      by omega, le_refl _⟩
    · show (epochTrainer D ls.trainer ls.cachedMean ls.cachedStddev).amplitude = _
      simp only [epochTrainer]
      rw [h.amp, h.len, h.opt, trajA_succ]
    · show (epochTrainer D ls.trainer ls.cachedMean ls.cachedStddev).length_scale = _
      simp only [epochTrainer]
      rw [h.amp, h.len, h.opt, trajL_succ]
    · show (epochTrainer D ls.trainer ls.cachedMean ls.cachedStddev).optState = _
      simp only [epochTrainer]
      rw [h.amp, h.len, h.opt, trajO_succ]
    · show (epochTrainer D ls.trainer ls.cachedMean ls.cachedStddev).trainingSteps = _
      simp only [epochTrainer]
      rw [h.steps]
    · show (epochTrainer D ls.trainer ls.cachedMean ls.cachedStddev).loss = _
      simp only [epochTrainer]
      rw [h.amp, h.len, h.opt, trajLoss_succ]
    · show some (epochNll D ls.trainer ls.cachedMean ls.cachedStddev) = _
      rw [hv]
    · exact h.mae
    · exact h.sharp
    · exact h.varia
    · exact h.cal
    · exact h.hck
    · show some (snapshotOf (epochTrainer D ls.trainer ls.cachedMean ls.cachedStddev)) = _
      rw [hsnap]
    · show some (epochNll D ls.trainer ls.cachedMean ls.cachedStddev) = _
      rw [hv]
  | false =>
    refine ⟨_, j, trainEpoch_nll_ckpt_stay D ls h.hck hb, ?_⟩
    refine ⟨?_, ?_, ?_, ?_, ?_, ?_, ?_, ?_, ?_, ?_, ?_, ?_, h.hcm, h.hcs, ?_,
      h.j1, by have := h.ji; omega⟩
    · show (epochTrainer D ls.trainer ls.cachedMean ls.cachedStddev).amplitude = _
      simp only [epochTrainer]
      rw [h.amp, h.len, h.opt, trajA_succ]
    · show (epochTrainer D ls.trainer ls.cachedMean ls.cachedStddev).length_scale = _
      simp only [epochTrainer]
      rw [h.amp, h.len, h.opt, trajL_succ]
    · show (epochTrainer D ls.trainer ls.cachedMean ls.cachedStddev).optState = _
      simp only [epochTrainer]
      rw [h.amp, h.len, h.opt, trajO_succ]
    · show (epochTrainer D ls.trainer ls.cachedMean ls.cachedStddev).trainingSteps = _
      simp only [epochTrainer]
      rw [h.steps]
    · show (epochTrainer D ls.trainer ls.cachedMean ls.cachedStddev).loss = _
      simp only [epochTrainer]
      rw [h.amp, h.len, h.opt, trajLoss_succ]
    · show some (epochNll D ls.trainer ls.cachedMean ls.cachedStddev) = _
      rw [hv]
    · exact h.mae
    · exact h.sharp
    · exact h.varia
    · exact h.cal
    · exact h.hck
    · show (epochTrainer D ls.trainer ls.cachedMean ls.cachedStddev).ckptStore = _
      simp only [epochTrainer]
      exact h.store
    · exact h.best

/-- Running the loop preserves the invariant for any number of epochs and
never stops early or fails in this configuration. -/
lemma c8Inv_loop {σ : Type} (D : GPDynamics σ) (a l : ℚ) (o : σ) (cm cs : List ℚ) :
    ∀ (n i j : ℕ) (ls : LoopState σ), C8Inv D a l o cm cs i j ls →
      ∃ fin j2, trainLoop D ["nll"] none n ls = TrainResult.completed fin ∧
        C8Inv D a l o cm cs (i + n) j2 fin := by
  intro n
  induction n with
  | zero =>
    intro i j ls h
    exact ⟨ls, j, rfl, h⟩
  | succ n ih =>
    intro i j ls h
    obtain ⟨ls2, j', hstep, h'⟩ := c8Inv_epoch D a l o cm cs i j ls h
    obtain ⟨fin, j2, hrun, h2⟩ := ih (i + 1) j' ls2 h'
    refine ⟨fin, j2, ?_, ?_⟩
    · rw [trainLoop_succ, hstep]
      exact hrun
    · have heq : i + (n + 1) = (i + 1) + n := by omega
      rw [heq]
      exact h2

/-- C8: training a fresh `GPTrainer` (constructed with an empty checkpoint
directory) for `K ≥ 1` epochs completes without early stop, the retained
checkpoint is a faithful snapshot of the trainer at some improving step
`j ≤ K` (the step the last save occurred), and constructing a fresh
`GPTrainer` against the resulting directory restores amplitude,
length-scale, step counter and loss to exactly their values at that last
checkpointed step. -/
theorem checkpoint_roundtrip {σ : Type} (D : GPDynamics σ) (pts : Tensor)
    (obs : List ℚ) (o0 : σ) (K : ℕ) (hK : 1 ≤ K) :
    ∃ (fin : LoopState σ) (j : ℕ),
      trainModel D (initState pts obs true none o0) K none [] =
        (["nll"], TrainResult.completed fin) ∧
      1 ≤ j ∧ j ≤ K ∧
      fin.trainer.ckptStore =
        some (snapAt D 1 1 o0 (D.meanOf 1 1) (D.stddevOf 1 1) j) ∧
      (initState pts obs true fin.trainer.ckptStore o0).amplitude = trajA D 1 1 o0 j ∧
      (initState pts obs true fin.trainer.ckptStore o0).length_scale = trajL D 1 1 o0 j ∧
      (initState pts obs true fin.trainer.ckptStore o0).trainingSteps = j ∧
      (initState pts obs true fin.trainer.ckptStore o0).loss = trajLoss D 1 1 o0 j := by
  obtain ⟨K1, rfl⟩ : ∃ K1, K = K1 + 1 := ⟨K - 1, by omega⟩
  have hms : trainModel D (initState pts obs true none o0) (K1 + 1) none [] =
      (["nll"], trainLoop D ["nll"] none (K1 + 1)
        { trainer := initState pts obs true none o0
          cachedMean := D.meanOf 1 1
          cachedStddev := D.stddevOf 1 1
          best := none
          ssi := 1 }) := rfl
  have himp : nllImproved (some (epochNll D (initState pts obs true none o0)
      (D.meanOf 1 1) (D.stddevOf 1 1))) (none : Option ℚ) = true := rfl
  have hstep1 := trainEpoch_nll_ckpt_improve D
    { trainer := initState pts obs true none o0
      cachedMean := D.meanOf 1 1
      cachedStddev := D.stddevOf 1 1
      best := none
      ssi := 1 } rfl himp
  have hinv1 : C8Inv D 1 1 o0 (D.meanOf 1 1) (D.stddevOf 1 1) 1 1
      { trainer := { epochTrainer D (initState pts obs true none o0) (D.meanOf 1 1)
          (D.stddevOf 1 1) with
          ckptStore := some (snapshotOf (epochTrainer D (initState pts obs true none o0)
            (D.meanOf 1 1) (D.stddevOf 1 1))) }
        cachedMean := D.meanOf 1 1
        cachedStddev := D.stddevOf 1 1
        best := some (epochNll D (initState pts obs true none o0) (D.meanOf 1 1)
          (D.stddevOf 1 1))
        ssi := 1 } :=
    ⟨rfl, rfl, rfl, rfl, rfl, rfl, rfl, rfl, rfl, rfl, rfl, rfl, rfl, rfl, rfl,
      le_refl 1, le_refl 1⟩
  obtain ⟨fin, j2, hrun, hfin⟩ := c8Inv_loop D 1 1 o0 (D.meanOf 1 1) (D.stddevOf 1 1)
    K1 1 1 _ hinv1
  refine ⟨fin, j2, ?_, hfin.j1, ?_, hfin.store, ?_, ?_, ?_, ?_⟩
  · rw [hms, trainLoop_succ, hstep1]
    exact congrArg _ hrun
  · have := hfin.ji
    omega
  · rw [hfin.store]
    rfl
  · rw [hfin.store]
    rfl
  · rw [hfin.store]
    rfl
  · rw [hfin.store]
    rfl

/-- Witness for C8 with the concrete demo dynamics and a 2-epoch run. -/
theorem checkpoint_roundtrip_witness :
    1 ≤ 2 ∧
    ∃ (fin : LoopState Unit) (j : ℕ),
      trainModel demoDyn (initState demoTensor [0, 1] true none ()) 2 none [] =
        (["nll"], TrainResult.completed fin) ∧
      1 ≤ j ∧ j ≤ 2 ∧
      fin.trainer.ckptStore =
        some (snapAt demoDyn 1 1 () (demoDyn.meanOf 1 1) (demoDyn.stddevOf 1 1) j) ∧
      (initState demoTensor [0, 1] true fin.trainer.ckptStore ()).amplitude =
        trajA demoDyn 1 1 () j ∧
      (initState demoTensor [0, 1] true fin.trainer.ckptStore ()).length_scale =
        trajL demoDyn 1 1 () j ∧
      (initState demoTensor [0, 1] true fin.trainer.ckptStore ()).trainingSteps = j ∧
      (initState demoTensor [0, 1] true fin.trainer.ckptStore ()).loss =
        trajLoss demoDyn 1 1 () j :=
  ⟨by norm_num,
    checkpoint_roundtrip demoDyn demoTensor [0, 1] () 2 (by norm_num)⟩
